import Mathlib

set_option autoImplicit false

namespace KBScraper

/-! Shallow embedding of the KB newspaper scraper: the metadata extractor
(regex fallback chains over HTML text), the transfer engine (download with
bounded retry), the remote sync layer (checksum-verified upload under the
retry decorator, cached folder resolution), and the per-issue orchestrator. -/

/-- Python whitespace characters stripped by str.strip and matched by the
regex whitespace class (ASCII fragment): space, tab, newline, carriage
return, vertical tab, form feed. -/
def isPySpace (c : Char) : Bool :=
  c == ' ' || c == '\t' || c == '\n' || c == '\r' || c == Char.ofNat 11 || c == Char.ofNat 12

/-- Python str.strip on a character list: drop whitespace from both ends. -/
def pyStripList (l : List Char) : List Char :=
  ((l.dropWhile isPySpace).reverse.dropWhile isPySpace).reverse

/-- Python str.strip on a string. -/
def pyStrip (s : String) : String :=
  String.mk (pyStripList s.toList)

/-- Match a literal character sequence at the head of the input; on success
return the remaining input. -/
def dropLit : List Char → List Char → Option (List Char)
  | [], s => some s
  | _ :: _, [] => none
  | p :: ps, c :: cs => if c == p then dropLit ps cs else none

/-- Embedding of re.search: try the position matcher at every start
position from left to right; the leftmost position that matches wins. -/
def searchOpt {α : Type} (m : List Char → Option α) : List Char → Option α
  | [] => m []
  | c :: t =>
    match m (c :: t) with
    | some v => some v
    | none => searchOpt m t

/-- Take exactly n digit characters from the front of the input, returning
the digits and the rest. -/
def takeDigits : Nat → List Char → Option (List Char × List Char)
  | 0, s => some ([], s)
  | _ + 1, [] => none
  | n + 1, c :: cs =>
    if c.isDigit then
      match takeDigits n cs with
      | some (ds, rest) => some (c :: ds, rest)
      | none => none
    else none

/-! Manifest-id extraction (extract_manifest_id_from_html). The two regex
patterns share one body: a literal attribute head, then one or more digits,
a slash, and a nonempty greedy capture of characters that are neither a
slash nor a percent sign. -/

/-- The manifest-id pattern body tried at one position. -/
def matchManifestAt (attrLit : List Char) (s : List Char) : Option (List Char) :=
  match dropLit attrLit s with
  | none => none
  | some r =>
    if r.takeWhile Char.isDigit = [] then none
    else
      match r.drop (r.takeWhile Char.isDigit).length with
      | '/' :: r1 =>
        if r1.takeWhile (fun c => !(c == '/') && !(c == '%')) = [] then none
        else some (r1.takeWhile (fun c => !(c == '/') && !(c == '%')))
      | _ => none

/-- Literal head of the primary (data-src) manifest-id pattern. -/
def dataSrcLit : List Char := "data-src=\"https://data.kb.se/iiif/".toList

/-- Literal head of the secondary (src) manifest-id pattern. -/
def srcLit : List Char := "src=\"https://data.kb.se/iiif/".toList

/-- Embedding of KBNewspaperScraper.extract_manifest_id_from_html: the
data-src pattern is searched first, then the plain src pattern; None when
neither matches anywhere. -/
def extract_manifest_id_from_html (html : String) : Option String :=
  match searchOpt (matchManifestAt dataSrcLit) html.toList with
  | some g => some (String.mk g)
  | none =>
    match searchOpt (matchManifestAt srcLit) html.toList with
    | some g => some (String.mk g)
    | none => none

/-! Date extraction (extract_date_from_html): three regex strategies tried
in order, first match wins. -/

/-- Literal head of the date-element pattern. -/
def dateElemLit : List Char := "<p class=\"search-result-item-date".toList

/-- Strategy 1 matcher at one position: the date-element literal head, a
greedy run of non-gt characters, a gt, a nonempty capture of non-lt
characters, then the closing p tag. -/
def matchDateElemAt (s : List Char) : Option (List Char) :=
  match dropLit dateElemLit s with
  | none => none
  | some r =>
    match r.drop (r.takeWhile (fun c => !(c == '>'))).length with
    | '>' :: r1 =>
      if r1.takeWhile (fun c => !(c == '<')) = [] then none
      else
        match dropLit "</p>".toList (r1.drop (r1.takeWhile (fun c => !(c == '<'))).length) with
        | some _ => some (r1.takeWhile (fun c => !(c == '<')))
        | none => none
    | _ => none

/-- Match one date token of shape dddd-dd-dd, returning the token and the
rest of the input. -/
def matchDateToken (r : List Char) : Option (List Char × List Char) :=
  match takeDigits 4 r with
  | none => none
  | some (y, r1) =>
    match r1 with
    | '-' :: r2 =>
      match takeDigits 2 r2 with
      | none => none
      | some (mo, r3) =>
        match r3 with
        | '-' :: r4 =>
          match takeDigits 2 r4 with
          | none => none
          | some (d, r5) => some (y ++ '-' :: mo ++ '-' :: d, r5)
        | _ => none
    | _ => none

/-- Tail of the title-tag pattern after the title capture: one or more
whitespace characters, a date token, optional whitespace, then a pipe. -/
def matchTitleTail (r : List Char) : Option (List Char) :=
  if r.takeWhile isPySpace = [] then none
  else
    match matchDateToken (r.drop (r.takeWhile isPySpace).length) with
    | none => none
    | some (d, r1) =>
      match r1.dropWhile isPySpace with
      | '|' :: _ => some d
      | _ => none

/-- Greedy backtracking over the title capture of the title-tag pattern:
capture lengths are tried from longest to shortest, each at least one
character, all of them non-pipe characters of r. -/
def tryTitleCapture (r : List Char) : Nat → Option (List Char)
  | 0 => none
  | l + 1 =>
    match matchTitleTail (r.drop (l + 1)) with
    | some d => some d
    | none => tryTitleCapture r l

/-- Strategy 2 matcher at one position: a title tag, a greedy nonempty
capture of non-pipe characters, then the dated tail. -/
def matchTitleDateAt (s : List Char) : Option (List Char) :=
  match dropLit "<title>".toList s with
  | none => none
  | some r => tryTitleCapture r (r.takeWhile (fun c => !(c == '|'))).length

/-- Strategy 3 matcher at one position: the literal bib, one or more
digits, an underscore, an eight-digit date split four-two-two, then an
underscore; the three groups are reassembled with hyphens. -/
def matchBibDateAt (s : List Char) : Option (List Char) :=
  match dropLit "bib".toList s with
  | none => none
  | some r =>
    if r.takeWhile Char.isDigit = [] then none
    else
      match r.drop (r.takeWhile Char.isDigit).length with
      | '_' :: r1 =>
        match takeDigits 4 r1 with
        | none => none
        | some (y, r2) =>
          match takeDigits 2 r2 with
          | none => none
          | some (mo, r3) =>
            match takeDigits 2 r3 with
            | none => none
            | some (d, r4) =>
              match r4 with
              | '_' :: _ => some (y ++ '-' :: mo ++ '-' :: d)
              | _ => none
      | _ => none

/-- Date strategy 1: dedicated date element text, stripped. -/
def dateStrategy1 (html : String) : Option String :=
  (searchOpt matchDateElemAt html.toList).map (fun g => String.mk (pyStripList g))

/-- Date strategy 2: title-tag date token, stripped. -/
def dateStrategy2 (html : String) : Option String :=
  (searchOpt matchTitleDateAt html.toList).map (fun g => String.mk (pyStripList g))

/-- Date strategy 3: filename-embedded date, reassembled with hyphens. -/
def dateStrategy3 (html : String) : Option String :=
  (searchOpt matchBibDateAt html.toList).map (fun g => String.mk g)

/-- Embedding of KBNewspaperScraper.extract_date_from_html: the three
strategies tried in order, first match wins. -/
def extract_date_from_html (html : String) : Option String :=
  match dateStrategy1 html with
  | some d => some d
  | none =>
    match dateStrategy2 html with
    | some d => some d
    | none => dateStrategy3 html

/-- Generic first-match-wins chain over three strategies; the code's
extract_date_from_html is this chain at its three concrete strategies. -/
def dateChain (s1 s2 s3 : String → Option String) (html : String) : Option String :=
  match s1 html with
  | some d => some d
  | none =>
    match s2 html with
    | some d => some d
    | none => s3 html

/-! Filename extraction (extract_filenames_from_html). -/

/-- Match one underscore-then-digits segment of the jp2 filename pattern. -/
def matchUnderscoreDigits (r : List Char) : Option (List Char × List Char) :=
  match r with
  | '_' :: r1 =>
    if r1.takeWhile Char.isDigit = [] then none
    else some ('_' :: r1.takeWhile Char.isDigit, r1.drop (r1.takeWhile Char.isDigit).length)
  | _ => none

/-- Match n underscore-then-digits segments in sequence. -/
def matchSegs : Nat → List Char → Option (List Char × List Char)
  | 0, r => some ([], r)
  | n + 1, r =>
    match matchUnderscoreDigits r with
    | none => none
    | some (seg, r1) =>
      match matchSegs n r1 with
      | none => none
      | some (segs, r2) => some (seg ++ segs, r2)

/-- The jp2 filename pattern tried at one position: bib, digits, four
underscore-digit segments, then the literal extension. Returns the matched
text and the input after the match. -/
def matchJp2At (s : List Char) : Option (List Char × List Char) :=
  match dropLit "bib".toList s with
  | none => none
  | some r =>
    if r.takeWhile Char.isDigit = [] then none
    else
      match matchSegs 4 (r.drop (r.takeWhile Char.isDigit).length) with
      | none => none
      | some (segs, r1) =>
        match dropLit ".jp2".toList r1 with
        | none => none
        | some r2 =>
          some ("bib".toList ++ r.takeWhile Char.isDigit ++ segs ++ ".jp2".toList, r2)

/-- Embedding of re.findall for the jp2 pattern: non-overlapping matches
scanned left to right; the fuel argument is an upper bound on the number
of scan steps, each of which consumes at least one character. -/
def findAllJp2Aux : Nat → List Char → List (List Char)
  | 0, _ => []
  | fuel + 1, s =>
    match matchJp2At s with
    | some (m, rest) => m :: findAllJp2Aux fuel rest
    | none =>
      match s with
      | [] => []
      | _ :: t => findAllJp2Aux fuel t

/-- Embedding of KBNewspaperScraper.extract_filenames_from_html: all
matches of the jp2 filename pattern, de-duplicated (the Python code builds
a set, whose iteration order is unspecified; first occurrences are kept
here). -/
def extract_filenames_from_html (html : String) : List String :=
  ((findAllJp2Aux html.toList.length html.toList).map String.mk).eraseDups

/-! Issue construction (process_search_result). -/

/-- Word character in the sense of the regex word class, ASCII fragment:
alphanumeric or underscore. -/
def isWordChar (c : Char) : Bool := c.isAlphanum || c == '_'

/-- Title sanitizer from process_search_result: the substitution removes
every character that is not a word character, whitespace, or hyphen, and
the result is then stripped. -/
def sanitizeTitle (t : String) : String :=
  String.mk (pyStripList (t.toList.filter (fun c => isWordChar c || isPySpace c || c == '-')))

/-- Issue record produced by the extractor, as in the NewspaperIssue
dataclass. -/
structure NewspaperIssue where
  title : String
  date : String
  manifest_id : String
  filenames : List String
  deriving DecidableEq, Repr

/-- Truthiness of an optional string in Python: present and nonempty. -/
def truthy (o : Option String) : Bool :=
  match o with
  | some s => !(s == "")
  | none => false

/-- Embedding of KBNewspaperScraper.process_search_result. The browser
element is abstracted as the texts of the matched date elements, the texts
of the matched title elements, and the inner HTML string; element texts
are stripped on read, exactly as in the code. -/
def process_search_result (dateElems titleElems : List String) (innerHtml : String) :
    Option NewspaperIssue :=
  let newspaperDate0 : Option String := dateElems.head?.map pyStrip
  let newspaperTitle0 : Option String := titleElems.head?.map pyStrip
  match extract_manifest_id_from_html innerHtml with
  | none => none
  | some manifestId =>
    let newspaperDate1 : Option String :=
      if truthy newspaperDate0 then newspaperDate0
      else
        match extract_date_from_html innerHtml with
        | some d => if d == "" then newspaperDate0 else some d
        | none => newspaperDate0
    let title :=
      match newspaperTitle0 with
      | some t => if t == "" then "Unknown" else sanitizeTitle t
      | none => "Unknown"
    let date :=
      match newspaperDate1 with
      | some d =>
        if d == "" then "Unknown_Date"
        else String.mk (d.toList.map (fun c => if c == '/' then '-' else c))
      | none => "Unknown_Date"
    some ⟨title, date, manifestId, extract_filenames_from_html innerHtml⟩

/-! Transfer engine (download_file). -/

/-- Outcome of one call to download_file: the value returned to the
caller, the error caught by the outer handler when every attempt failed,
the number of network fetch attempts issued, and the sleep delays taken
between attempts. -/
structure DownloadRun where
  result : Bool
  raised : Option String
  fetches : Nat
  delays : List Nat
  deriving DecidableEq, Repr

/-- Inner retry loop of download_file: k is the attempt index, the second
argument the remaining attempt budget; err k = some e means network
attempt k fails with error e. Returns (raised error or success, attempts
issued, delays slept). A failed attempt that is not the last sleeps two
time units before the next one; the last failure is re-raised. -/
def downloadAttempts (err : Nat → Option String) : Nat → Nat → Option String × Nat × List Nat
  | _, 0 => (none, 0, [])
  | k, r + 1 =>
    match err k with
    | none => (none, 1, [])
    | some e =>
      if r = 0 then (some e, 1, [])
      else
        let rest := downloadAttempts err (k + 1) r
        (rest.1, rest.2.1 + 1, 2 :: rest.2.2)

/-- Embedding of KBNewspaperScraper.download_file over an abstract local
filesystem (fs p = true when path p exists). If the target exists the call
returns True at once with no fetch; otherwise the bounded retry loop runs,
a raised final error is caught by the outer handler and mapped to False,
and a successful attempt writes the file. With a zero retry budget the
loop body never runs and Python returns None, which the caller treats as
false. -/
def download_file (fs : String → Bool) (filepath : String) (retryCount : Nat)
    (err : Nat → Option String) : DownloadRun × (String → Bool) :=
  if fs filepath then (⟨true, none, 0, []⟩, fs)
  else
    match downloadAttempts err 0 retryCount with
    | (some e, n, ds) => (⟨false, some e, n, ds⟩, fs)
    | (none, 0, _) => (⟨false, none, 0, []⟩, fs)
    | (none, n + 1, ds) =>
      (⟨true, none, n + 1, ds⟩, fun p => if p == filepath then true else fs p)

/-! Retry decorator and upload (retry, upload_to_drive). -/

/-- Body of the retry decorator: k is the attempt index, d the current
delay, the third argument the remaining attempt budget. A failed attempt
that is not the last sleeps the current delay and multiplies it by the
backoff factor; the last failure is re-raised. Returns (result, attempts
issued, delays slept). -/
def retryGo {α : Type} (f : Nat → Except String α) (factor : Nat) :
    Nat → Nat → Nat → Except String α × Nat × List Nat
  | _, _, 0 => (Except.error "", 0, [])
  | k, d, r + 1 =>
    match f k with
    | Except.ok v => (Except.ok v, 1, [])
    | Except.error e =>
      if r = 0 then (Except.error e, 1, [])
      else
        let rest := retryGo f factor (k + 1) (d * factor) r
        (rest.1, rest.2.1 + 1, d :: rest.2.2)

/-- The retry decorator applied with (max_attempts, initial_delay,
backoff_factor). -/
def retryPolicy {α : Type} (maxAttempts initialDelay factor : Nat)
    (f : Nat → Except String α) : Except String α × Nat × List Nat :=
  retryGo f factor 0 initialDelay maxAttempts

/-- One body execution of upload_to_drive: the remote store reports
checksum remoteMd5 and id fileId for this attempt; a checksum mismatch
with the locally computed checksum raises ValueError, otherwise the file
id is returned. -/
def upload_to_drive_once (localMd5 remoteMd5 fileId : String) : Except String String :=
  if localMd5 == remoteMd5 then Except.ok fileId
  else Except.error "MD5 mismatch"

/-- upload_to_drive as called: the body wrapped by the retry decorator at
its defaults (max_attempts 5, initial_delay 1, backoff_factor 2); remote k
is the checksum the remote store reports on attempt k. -/
def upload_to_drive (localMd5 : String) (remote : Nat → String) (fileId : String) :
    Except String String × Nat × List Nat :=
  retryPolicy 5 1 2 (fun k => upload_to_drive_once localMd5 (remote k) fileId)

/-! Per-issue orchestration (download_newspaper_issue). -/

/-- Fate of one resolved asset, abstracting the remote and network
interactions of one loop iteration of download_newspaper_issue:
existsInDrive is the Drive existence check, downloadOk the download_file
result, uploadOk whether the retried upload returned normally. -/
structure AssetFate where
  existsInDrive : Bool
  downloadOk : Bool
  uploadOk : Bool
  deriving DecidableEq, Repr

/-- Contribution of one loop iteration to success_count: a skip on remote
existence (only when a Drive folder id is configured) counts one, else a
successful download followed by a successful upload counts one. -/
def assetSuccess (hasFolderId : Bool) (a : AssetFate) : Nat :=
  if hasFolderId && a.existsInDrive then 1
  else if a.downloadOk then (if a.uploadOk then 1 else 0)
  else 0

/-- The success_count accumulated over the asset loop. -/
def successCount (hasFolderId : Bool) : List AssetFate → Nat
  | [] => 0
  | a :: rest => assetSuccess hasFolderId a + successCount hasFolderId rest

/-- Embedding of KBNewspaperScraper.download_newspaper_issue after
manifest resolution: a resolution with no assets returns False before the
loop; otherwise the outcome is whether success_count equals the number of
resolved assets. -/
def download_newspaper_issue (hasFolderId : Bool) (assets : List AssetFate) : Bool :=
  if assets.isEmpty then false
  else successCount hasFolderId assets == assets.length

/-- One asset individually succeeded: skipped because it already exists
remotely, or downloaded and upload-verified. -/
def assetSucceeded (hasFolderId : Bool) (a : AssetFate) : Bool :=
  (hasFolderId && a.existsInDrive) || (a.downloadOk && a.uploadOk)

/-! Remote sync layer: cached folder resolution
(GoogleDriveUploader.get_or_create_folder in drive_utils). -/

/-- One folder record in the remote store. -/
structure DriveFolder where
  name : String
  parent : Option String
  id : String
  deriving DecidableEq, Repr

/-- The remote store as seen through the folder list and create calls:
folder records, a fresh-id counter, and counters of the two remote calls. -/
structure DriveState where
  folders : List DriveFolder
  nextId : Nat
  listCalls : Nat
  createCalls : Nat
  deriving DecidableEq, Repr

/-- Predicate of the folder query both resolvers build: the name matches,
and when a parent id is specified the folder sits under that parent. -/
def folderQueryPred (name : String) (parent : Option String) (f : DriveFolder) : Bool :=
  f.name == name &&
    match parent with
    | some p => f.parent == some p
    | none => true

/-- Remote folder query: folders with the given name, restricted to the
given parent when one is specified (as in the query string the code
builds). -/
def listFolders (st : DriveState) (name : String) (parent : Option String) :
    List DriveFolder × DriveState :=
  (st.folders.filter (folderQueryPred name parent),
   { st with listCalls := st.listCalls + 1 })

/-- Remote folder creation: a fresh id is assigned and the record stored. -/
def createFolder (st : DriveState) (name : String) (parent : Option String) :
    String × DriveState :=
  let fid := "fid" ++ toString st.nextId
  (fid, { st with folders := st.folders ++ [⟨name, parent, fid⟩],
                  nextId := st.nextId + 1,
                  createCalls := st.createCalls + 1 })

/-- Embedding of the scraper-local get_or_create_drive_folder, the
resolver download_newspaper_issue actually calls: it keeps no session
cache, so every resolution queries the remote store; when the query finds
a folder its id is returned, otherwise the folder is created. The success
path of its retry wrapper is modelled (a working store needs no retry). -/
def get_or_create_drive_folder (st : DriveState) (folderName : String)
    (parentId : Option String) : String × DriveState :=
  match listFolders st folderName parentId with
  | (f :: _, drive2) => (f.id, drive2)
  | ([], drive2) => createFolder drive2 folderName parentId

/-- Session state of GoogleDriveUploader: the folder cache keyed by
(parent_id, folder_name), plus the remote store. -/
structure UploaderState where
  cache : List ((Option String × String) × String)
  drive : DriveState
  deriving DecidableEq, Repr

/-- Lookup in the folder cache. -/
def cacheLookup : List ((Option String × String) × String) →
    (Option String × String) → Option String
  | [], _ => none
  | (k, v) :: rest, key => if k == key then some v else cacheLookup rest key

/-- Embedding of GoogleDriveUploader.get_or_create_folder: the session
cache is consulted first; on a miss the remote store is queried, the
folder is created when absent, and the resulting id is cached under
(parent_id, folder_name). -/
def get_or_create_folder (st : UploaderState) (folderName : String)
    (parentId : Option String) : String × UploaderState :=
  match cacheLookup st.cache (parentId, folderName) with
  | some fid => (fid, st)
  | none =>
    match listFolders st.drive folderName parentId with
    | (f :: _, drive2) => (f.id, ⟨((parentId, folderName), f.id) :: st.cache, drive2⟩)
    | ([], drive2) =>
      ((createFolder drive2 folderName parentId).1,
       ⟨((parentId, folderName), (createFolder drive2 folderName parentId).1) :: st.cache,
        (createFolder drive2 folderName parentId).2⟩)

/-! Date-range entry point (scrape_by_date_range). -/

/-- The anchored date shape dddd-dd-dd. -/
def dateShape : List Char → Bool
  | [y1, y2, y3, y4, h1, m1, m2, h2, d1, d2] =>
    y1.isDigit && y2.isDigit && y3.isDigit && y4.isDigit && h1 == '-' &&
    m1.isDigit && m2.isDigit && h2 == '-' && d1.isDigit && d2.isDigit
  | _ => false

/-- Python re.match of the anchored date pattern: the whole string has the
date shape, or has it followed by one trailing newline (the dollar anchor
also matches just before a final newline). -/
def matchesDateArg (s : String) : Bool :=
  let l := s.toList
  dateShape l ||
    (decide (l.length = 11) && (l.getLast? == some '\n') && dateShape (l.take 10))

/-- Observable effects of one scrape_by_date_range call: browser
navigations, manifest fetches, file downloads, Drive uploads, and the
returned list of successfully processed issues. -/
structure ScrapeEffects where
  navigations : Nat
  manifestFetches : Nat
  downloads : Nat
  uploads : Nat
  issues : List NewspaperIssue
  deriving DecidableEq, Repr

/-- Embedding of KBNewspaperScraper.scrape_by_date_range: both date
arguments are validated against the anchored date pattern before anything
else; everything from the browser navigation on is abstracted as the
collaborator rest, consulted only when both dates are valid (its
navigation count includes the initial page load). An invalid date returns
the empty issue list with no effects. -/
def scrape_by_date_range (startDate endDate : String)
    (rest : Unit → ScrapeEffects) : ScrapeEffects :=
  if matchesDateArg startDate && matchesDateArg endDate then rest ()
  else ⟨0, 0, 0, 0, []⟩

/-- Delays slept by the retry decorator when every attempt fails: the
geometric sequence starting at the initial delay with the backoff factor. -/
def backoffDelays (d factor : Nat) : Nat → List Nat
  | 0 => []
  | n + 1 => d :: backoffDelays (d * factor) factor n

/-- Whether an Except-producing call returned normally. -/
def exceptOk {α : Type} : Except String α → Bool
  | Except.ok _ => true
  | Except.error _ => false

/-- Modelled from the claim wording of C4, for comparison with the code's
sanitizer: remove every character that is not alphanumeric, whitespace, or
hyphen. -/
def claimTitleSanitize (t : String) : String :=
  String.mk (t.toList.filter (fun c => c.isAlphanum || isPySpace c || c == '-'))

/-! Helper lemmas shared by the claim theorems. -/

/-- One loop iteration adds one to success_count exactly when the asset
individually succeeded. -/
theorem assetSuccess_eq (h : Bool) (a : AssetFate) :
    assetSuccess h a = if assetSucceeded h a = true then 1 else 0 := by
  unfold assetSuccess assetSucceeded
  cases hb : h && a.existsInDrive <;> cases hd : a.downloadOk <;> cases hu : a.uploadOk <;> simp

/-- The success count never exceeds the number of assets. -/
theorem successCount_le (h : Bool) (as : List AssetFate) :
    successCount h as ≤ as.length := by
  induction as with
  | nil => simp [successCount]
  | cons a rest ih =>
    have := assetSuccess_eq h a
    by_cases hs : assetSucceeded h a = true <;>
      simp only [successCount, List.length_cons] <;> rw [this] <;> simp [hs] <;> omega

/-- The success count equals the number of assets exactly when every asset
individually succeeded. -/
theorem successCount_eq_iff (h : Bool) (as : List AssetFate) :
    successCount h as = as.length ↔ ∀ a ∈ as, assetSucceeded h a = true := by
  induction as with
  | nil => simp [successCount]
  | cons a rest ih =>
    simp only [successCount, List.length_cons, List.mem_cons]
    rw [assetSuccess_eq]
    by_cases hs : assetSucceeded h a = true
    · rw [if_pos hs]
      constructor
      · intro heq
        have : successCount h rest = rest.length := by omega
        intro b hb
        rcases hb with rfl | hb
        · exact hs
        · exact (ih.mp this) b hb
      · intro hall
        have : successCount h rest = rest.length := ih.mpr (fun b hb => hall b (Or.inr hb))
        omega
    · rw [if_neg hs]
      have hle := successCount_le h rest
      constructor
      · intro heq; omega
      · intro hall; exact absurd (hall a (Or.inl rfl)) hs

/-- Issue outcome characterization: True exactly when the resolution was
nonempty and every asset succeeded. -/
theorem download_newspaper_issue_eq_true (h : Bool) (as : List AssetFate) :
    download_newspaper_issue h as = true ↔
      as ≠ [] ∧ ∀ a ∈ as, assetSucceeded h a = true := by
  unfold download_newspaper_issue
  cases as with
  | nil => simp
  | cons a rest =>
    rw [if_neg (by simp)]
    rw [beq_iff_eq, successCount_eq_iff]
    simp

/-- C1: For every processed issue, download_newspaper_issue returns true
exactly when every asset resolved from the manifest individually succeeded
(a skip on remote existence and a verified upload both count as success),
and a manifest resolution yielding zero assets makes the issue outcome
false. -/
theorem issue_success_iff_every_asset_succeeded (hasFolderId : Bool)
    (assets : List AssetFate) :
    (download_newspaper_issue hasFolderId assets = true ↔
      assets ≠ [] ∧ ∀ a ∈ assets, assetSucceeded hasFolderId a = true) ∧
    download_newspaper_issue hasFolderId [] = false :=
  ⟨download_newspaper_issue_eq_true hasFolderId assets, rfl⟩

/-- C10: For every start or end date string rejected by the anchored date
pattern, scrape_by_date_range returns the empty issue list immediately,
with no browser navigation, manifest fetch, download, or upload. -/
theorem invalid_date_range_returns_empty (startDate endDate : String)
    (rest : Unit → ScrapeEffects)
    (h : matchesDateArg startDate = false ∨ matchesDateArg endDate = false) :
    scrape_by_date_range startDate endDate rest = ⟨0, 0, 0, 0, []⟩ := by
  unfold scrape_by_date_range
  rcases h with h | h <;> rw [if_neg (by simp [h])]

/-- C10 witness: a malformed start date yields the empty result with zero
effect counters, whatever the rest of the pipeline would have done. -/
theorem invalid_date_range_returns_empty_witness :
    scrape_by_date_range "2020/01/01" "2020-01-02" (fun _ => ⟨7, 7, 7, 7, []⟩) =
      ⟨0, 0, 0, 0, []⟩ :=
  invalid_date_range_returns_empty "2020/01/01" "2020-01-02"
    (fun _ => ⟨7, 7, 7, 7, []⟩) (Or.inl (by decide))

/-- A cache hit returns the cached id and leaves the whole session state,
remote store included, unchanged. -/
theorem get_or_create_folder_cache_hit (st : UploaderState) (name : String)
    (parent : Option String) (fid : String)
    (h : cacheLookup st.cache (parent, name) = some fid) :
    get_or_create_folder st name parent = (fid, st) := by
  unfold get_or_create_folder
  rw [h]

/-- After any resolution, the cache holds the returned id under the
(parent_id, name) key. -/
theorem get_or_create_folder_caches (st : UploaderState) (name : String)
    (parent : Option String) :
    cacheLookup (get_or_create_folder st name parent).2.cache (parent, name) =
      some (get_or_create_folder st name parent).1 := by
  unfold get_or_create_folder
  cases h : cacheLookup st.cache (parent, name) with
  | some fid => simpa using h
  | none =>
    rcases hq : listFolders st.drive name parent with ⟨found, drive2⟩
    cases found with
    | nil => simp [cacheLookup]
    | cons f fs => simp [cacheLookup]

/-- One resolution issues at most one remote create call. -/
theorem get_or_create_folder_createCalls (st : UploaderState) (name : String)
    (parent : Option String) :
    (get_or_create_folder st name parent).2.drive.createCalls ≤
      st.drive.createCalls + 1 := by
  unfold get_or_create_folder
  cases h : cacheLookup st.cache (parent, name) with
  | some fid => simp
  | none =>
    rcases hq : listFolders st.drive name parent with ⟨found, drive2⟩
    have h2 : drive2.createCalls = st.drive.createCalls := by
      have hsnd := congrArg Prod.snd hq
      simp only [listFolders] at hsnd
      rw [← hsnd]
    cases found with
    | nil => simp [createFolder, h2]
    | cons f fs => simp [h2]

/-- A freshly created folder record satisfies the query predicate of its
own (name, parent) pair. -/
theorem folderQueryPred_self (name : String) (parent : Option String) (fid : String) :
    folderQueryPred name parent ⟨name, parent, fid⟩ = true := by
  unfold folderQueryPred
  cases parent <;> simp

/-- The pipeline resolver when the query finds a folder: it returns that
folder's id and only bumps the list-call counter. -/
theorem get_or_create_drive_folder_found {st : DriveState} {name : String}
    {parent : Option String} {f : DriveFolder} {fs : List DriveFolder}
    (h : st.folders.filter (folderQueryPred name parent) = f :: fs) :
    get_or_create_drive_folder st name parent =
      (f.id, { st with listCalls := st.listCalls + 1 }) := by
  unfold get_or_create_drive_folder listFolders
  rw [h]

/-- The pipeline resolver when the query finds nothing: it creates the
folder, returning the fresh id and bumping both remote-call counters. -/
theorem get_or_create_drive_folder_absent {st : DriveState} {name : String}
    {parent : Option String}
    (h : st.folders.filter (folderQueryPred name parent) = []) :
    get_or_create_drive_folder st name parent =
      ("fid" ++ toString st.nextId,
       ⟨st.folders ++ [⟨name, parent, "fid" ++ toString st.nextId⟩],
        st.nextId + 1, st.listCalls + 1, st.createCalls + 1⟩) := by
  unfold get_or_create_drive_folder listFolders createFolder
  rw [h]

/-- C5 counterexample: the pipeline's folder resolver,
get_or_create_drive_folder, keeps no session cache. Resolving the same
(parent_id, name) pair twice from an empty store issues a remote list
query on both resolutions (the list-call counter reaches two), so the
second resolution is served by re-querying the remote store, not from a
session cache; only one create is issued. -/
theorem pipeline_folder_resolver_requeries :
    (get_or_create_drive_folder ⟨[], 0, 0, 0⟩ "n" (some "p")).2.listCalls = 1 ∧
    (get_or_create_drive_folder
        (get_or_create_drive_folder ⟨[], 0, 0, 0⟩ "n" (some "p")).2
        "n" (some "p")).2.listCalls = 2 ∧
    (get_or_create_drive_folder
        (get_or_create_drive_folder ⟨[], 0, 0, 0⟩ "n" (some "p")).2
        "n" (some "p")).2.createCalls = 1 :=
  ⟨by rfl, by rfl, by rfl⟩

/-- C5 amended: Within one run, two folder resolutions of the same
(parent_id, name) pair issue at most one create_folder call to the remote
store, whichever resolver is used. For the cached resolver
GoogleDriveUploader.get_or_create_folder the first resolution caches the
id under (parent_id, name) and the second resolution returns it from the
session cache, leaving the session state untouched; the pipeline's
get_or_create_drive_folder instead re-queries the remote store on the
second resolution (one more list call) and returns the id found there. -/
theorem folder_resolution_at_most_one_create (st : UploaderState) (name : String)
    (parent : Option String) (dst : DriveState) :
    (get_or_create_folder (get_or_create_folder st name parent).2 name parent =
      ((get_or_create_folder st name parent).1,
       (get_or_create_folder st name parent).2)) ∧
    cacheLookup (get_or_create_folder st name parent).2.cache (parent, name) =
      some (get_or_create_folder st name parent).1 ∧
    (get_or_create_folder (get_or_create_folder st name parent).2 name
        parent).2.drive.createCalls ≤ st.drive.createCalls + 1 ∧
    (get_or_create_drive_folder (get_or_create_drive_folder dst name parent).2
        name parent).1 = (get_or_create_drive_folder dst name parent).1 ∧
    (get_or_create_drive_folder (get_or_create_drive_folder dst name parent).2
        name parent).2.createCalls ≤ dst.createCalls + 1 ∧
    (get_or_create_drive_folder (get_or_create_drive_folder dst name parent).2
        name parent).2.listCalls = dst.listCalls + 2 := by
  have hc := get_or_create_folder_caches st name parent
  have hhit := get_or_create_folder_cache_hit
    (get_or_create_folder st name parent).2 name parent
    (get_or_create_folder st name parent).1 hc
  have hcc : (get_or_create_folder (get_or_create_folder st name parent).2 name
      parent).2.drive.createCalls ≤ st.drive.createCalls + 1 := by
    rw [hhit]
    exact get_or_create_folder_createCalls st name parent
  refine ⟨hhit, hc, hcc, ?_⟩
  cases hq : dst.folders.filter (folderQueryPred name parent) with
  | cons f fs =>
    have h1 := get_or_create_drive_folder_found hq
    have hq2 : ({ dst with listCalls := dst.listCalls + 1 } :
        DriveState).folders.filter (folderQueryPred name parent) = f :: fs := hq
    have h2 := get_or_create_drive_folder_found hq2
    rw [h1, h2]
    exact ⟨rfl, by simp, rfl⟩
  | nil =>
    have h1 := get_or_create_drive_folder_absent hq
    have hq2 : (⟨dst.folders ++ [⟨name, parent, "fid" ++ toString dst.nextId⟩],
        dst.nextId + 1, dst.listCalls + 1, dst.createCalls + 1⟩ :
          DriveState).folders.filter (folderQueryPred name parent) =
        ⟨name, parent, "fid" ++ toString dst.nextId⟩ :: [] := by
      simp only [List.filter_append, hq, List.nil_append]
      simp [List.filter, folderQueryPred_self]
    have h2 := get_or_create_drive_folder_found hq2
    rw [h1, h2]
    exact ⟨rfl, by simp, rfl⟩

/-- Existence of the local target short-circuits download_file: immediate
success, no fetch, no delay, unchanged filesystem. -/
theorem download_file_target_exists (fs : String → Bool) (p : String) (rc : Nat)
    (err : Nat → Option String) (h : fs p = true) :
    download_file fs p rc err = (⟨true, none, 0, []⟩, fs) := by
  unfold download_file
  rw [if_pos h]

/-- A download_file call that reports success leaves the target present on
the local filesystem. -/
theorem download_file_success_writes (fs : String → Bool) (p : String) (rc : Nat)
    (err : Nat → Option String) (h : (download_file fs p rc err).1.result = true) :
    (download_file fs p rc err).2 p = true := by
  unfold download_file at h ⊢
  by_cases hfs : fs p = true
  · rw [if_pos hfs] at h ⊢
    exact hfs
  · rw [if_neg hfs] at h ⊢
    rcases hda : downloadAttempts err 0 rc with ⟨res, n, ds⟩
    rw [hda] at h
    cases res with
    | some e => simp at h
    | none =>
      cases n with
      | zero => simp at h
      | succ m => simp

/-- C7: Download is idempotent. If the target path already exists,
download_file returns success at once with zero network fetches and no
change to the filesystem (existence alone is the skip condition, nothing
about content is consulted); consequently a second invocation after any
successful call performs zero fetches and succeeds. -/
theorem download_idempotent (fs : String → Bool) (p : String) (rc rc2 : Nat)
    (err err2 : Nat → Option String) :
    (fs p = true → download_file fs p rc err = (⟨true, none, 0, []⟩, fs)) ∧
    ((download_file fs p rc err).1.result = true →
      (download_file (download_file fs p rc err).2 p rc2 err2).1 =
        ⟨true, none, 0, []⟩) := by
  constructor
  · intro h
    exact download_file_target_exists fs p rc err h
  · intro h
    have hw := download_file_success_writes fs p rc err h
    rw [download_file_target_exists (download_file fs p rc err).2 p rc2 err2 hw]

/-- C7 witness: a pre-existing target returns success with no fetch, and a
successful fresh download is never fetched again on the second call. -/
theorem download_idempotent_witness :
    download_file (fun q => q == "a/b.jp2") "a/b.jp2" 3 (fun _ => some "e") =
      (⟨true, none, 0, []⟩, fun q => q == "a/b.jp2") ∧
    (download_file
        (download_file (fun _ => false) "a/b.jp2" 3 (fun _ => none)).2
        "a/b.jp2" 3 (fun _ => some "e")).1 = ⟨true, none, 0, []⟩ :=
  ⟨(download_idempotent (fun q => q == "a/b.jp2") "a/b.jp2" 3 3
      (fun _ => some "e") (fun _ => some "e")).1 (by decide),
   (download_idempotent (fun _ => false) "a/b.jp2" 3 3
      (fun _ => none) (fun _ => some "e")).2 (by decide)⟩

/-- When every attempt in the budget fails, the download loop issues the
whole budget of attempts, sleeps two time units between consecutive
attempts, and re-raises the final attempt's error. -/
theorem downloadAttempts_allFail (err : Nat → Option String) :
    ∀ r k, (∀ j, j < r + 1 → err (k + j) ≠ none) →
      downloadAttempts err k (r + 1) = (err (k + r), r + 1, List.replicate r 2) := by
  intro r
  induction r with
  | zero =>
    intro k h
    have h0 := h 0 (by omega)
    rw [Nat.add_zero] at h0 ⊢
    unfold downloadAttempts
    cases he : err k with
    | none => exact absurd he h0
    | some e => simp [he]
  | succ n ih =>
    intro k h
    have h0 := h 0 (by omega)
    rw [Nat.add_zero] at h0
    have hrest := ih (k + 1) (fun j hj => by
      have hjj := h (j + 1) (by omega)
      have harith : k + 1 + j = k + (j + 1) := by omega
      rw [harith]
      exact hjj)
    unfold downloadAttempts
    cases he : err k with
    | none => exact absurd he h0
    | some e =>
      have harith : k + 1 + n = k + (n + 1) := by omega
      rw [harith] at hrest
      simp [hrest, List.replicate_succ]

/-- download_file on a missing target whose every attempt fails: the whole
run record, via downloadAttempts_allFail. -/
theorem download_file_allFail (fs : String → Bool) (p : String) (rc : Nat)
    (err : Nat → Option String) (hrc : 0 < rc) (hfs : fs p = false)
    (hfail : ∀ j, j < rc → err j ≠ none) :
    (download_file fs p rc err).1 =
      ⟨false, err (rc - 1), rc, List.replicate (rc - 1) 2⟩ := by
  obtain ⟨r, rfl⟩ : ∃ r, rc = r + 1 := ⟨rc - 1, by omega⟩
  obtain ⟨e, he⟩ : ∃ e, err r = some e := by
    cases herr : err r with
    | none => exact absurd herr (hfail r (by omega))
    | some e => exact ⟨e, rfl⟩
  have hda := downloadAttempts_allFail err r 0 (by
    intro j hj
    simpa using hfail j (by omega))
  rw [Nat.zero_add] at hda
  rw [he] at hda
  unfold download_file
  rw [if_neg (by simp [hfs])]
  rw [hda]
  simp [he]

/-- C6: For every download whose every attempt fails, download_file
surfaces failure only after exactly retry_count attempts, with exactly
retry_count minus one intervening fixed delays of two time units, and the
final attempt's error is what reaches the outer handler and is mapped to
the False error result rather than being swallowed. -/
theorem download_retry_exhaustion (fs : String → Bool) (p : String) (rc : Nat)
    (err : Nat → Option String) (hrc : 0 < rc) (hfs : fs p = false)
    (hfail : ∀ j, j < rc → err j ≠ none) :
    (download_file fs p rc err).1.result = false ∧
    (download_file fs p rc err).1.fetches = rc ∧
    (download_file fs p rc err).1.delays = List.replicate (rc - 1) 2 ∧
    (download_file fs p rc err).1.raised = err (rc - 1) := by
  rw [download_file_allFail fs p rc err hrc hfs hfail]
  exact ⟨rfl, rfl, rfl, rfl⟩

/-- C6 witness: with the default budget of three attempts and a network
error on every attempt, the run reports failure after three fetches, two
delays of two time units, and the final error. -/
theorem download_retry_exhaustion_witness :
    (download_file (fun _ => false) "a.jp2" 3 (fun _ => some "timeout")).1.result
        = false ∧
    (download_file (fun _ => false) "a.jp2" 3 (fun _ => some "timeout")).1.fetches
        = 3 ∧
    (download_file (fun _ => false) "a.jp2" 3 (fun _ => some "timeout")).1.delays
        = List.replicate 2 2 ∧
    (download_file (fun _ => false) "a.jp2" 3 (fun _ => some "timeout")).1.raised
        = some "timeout" :=
  download_retry_exhaustion (fun _ => false) "a.jp2" 3 (fun _ => some "timeout")
    (by decide) (by decide) (fun j _ => by simp)

/-- When every attempt in the budget fails, the retry decorator issues the
whole budget of attempts, sleeps the geometric backoff sequence, and
re-raises the final attempt's error. -/
theorem retryGo_allFail {α : Type} (f : Nat → Except String α) (factor : Nat) :
    ∀ r k d, (∀ j, j < r + 1 → ∃ e, f (k + j) = Except.error e) →
      ∃ e2, f (k + r) = Except.error e2 ∧
        retryGo f factor k d (r + 1) = (Except.error e2, r + 1, backoffDelays d factor r) := by
  intro r
  induction r with
  | zero =>
    intro k d h
    obtain ⟨e, he⟩ := h 0 (by omega)
    rw [Nat.add_zero] at he
    refine ⟨e, he, ?_⟩
    unfold retryGo
    simp [he, backoffDelays]
  | succ n ih =>
    intro k d h
    obtain ⟨e, he⟩ := h 0 (by omega)
    rw [Nat.add_zero] at he
    obtain ⟨e2, he2, hrest⟩ := ih (k + 1) (d * factor) (fun j hj => by
      have hjj := h (j + 1) (by omega)
      have harith : k + 1 + j = k + (j + 1) := by omega
      rw [harith]
      exact hjj)
    have harith : k + 1 + n = k + (n + 1) := by omega
    rw [harith] at he2
    refine ⟨e2, he2, ?_⟩
    unfold retryGo
    simp [he, hrest, backoffDelays]

/-- The retried upload with a mismatching remote checksum on every attempt:
five attempts, geometric delays, and a propagated MD5-mismatch error. -/
theorem upload_to_drive_allMismatch (localMd5 fid : String) (remote : Nat → String)
    (hm : ∀ k, k < 5 → ¬ remote k = localMd5) :
    upload_to_drive localMd5 remote fid =
      (Except.error "MD5 mismatch", 5, [1, 2, 4, 8]) := by
  have hfail : ∀ j, j < 4 + 1 →
      ∃ e, upload_to_drive_once localMd5 (remote (0 + j)) fid = Except.error e := by
    intro j hj
    refine ⟨"MD5 mismatch", ?_⟩
    unfold upload_to_drive_once
    rw [if_neg ?_]
    simp only [beq_iff_eq]
    exact fun heq => hm (0 + j) (by omega) heq.symm
  obtain ⟨e2, he2, hrun⟩ := retryGo_allFail
    (fun k => upload_to_drive_once localMd5 (remote k) fid) 2 4 0 1 hfail
  unfold upload_to_drive retryPolicy
  rw [hrun]
  have : e2 = "MD5 mismatch" := by
    unfold upload_to_drive_once at he2
    by_cases hc : (localMd5 == remote (0 + 4)) = true
    · rw [if_pos hc] at he2; exact absurd he2 (by simp)
    · rw [if_neg hc] at he2
      injection he2 with hh
      exact hh.symm
  rw [this]
  rfl

/-- C2 counterexample: the upload retry policy is not the same as the
download retry policy. On persistent failure the decorated upload issues
five attempts with exponential backoff delays one, two, four, eight, while
download_file at its default budget issues three attempts with fixed
delays of two; neither the attempt counts nor the delay sequences agree. -/
theorem upload_download_retry_policies_differ :
    upload_to_drive "aaa" (fun _ => "bbb") "id" =
      (Except.error "MD5 mismatch", 5, [1, 2, 4, 8]) ∧
    (download_file (fun _ => false) "p" 3 (fun _ => some "err")).1 =
      ⟨false, some "err", 3, [2, 2]⟩ ∧
    ¬((5 : Nat) = 3 ∧ ([1, 2, 4, 8] : List Nat) = [2, 2]) :=
  ⟨by rfl, by decide, by decide⟩

/-- C2 amended: upload is wrapped in a bounded-retry-with-backoff policy,
but not the same one as download: a persistently failing upload is retried
for five attempts with exponential backoff delays one, two, four, eight
before the error propagates, while a persistently failing download is
retried for retry_count attempts with fixed delays of two; the two
policies disagree at their default configurations. -/
theorem upload_retry_policy_bounded_but_different (localMd5 fid : String)
    (remote : Nat → String) (hm : ∀ k, k < 5 → ¬ remote k = localMd5)
    (fs : String → Bool) (p : String) (rc : Nat) (err : Nat → Option String)
    (hrc : 0 < rc) (hfs : fs p = false) (hfail : ∀ j, j < rc → err j ≠ none) :
    upload_to_drive localMd5 remote fid =
      (Except.error "MD5 mismatch", 5, [1, 2, 4, 8]) ∧
    (download_file fs p rc err).1.fetches = rc ∧
    (download_file fs p rc err).1.delays = List.replicate (rc - 1) 2 ∧
    ¬([1, 2, 4, 8] : List Nat) = List.replicate (3 - 1) 2 := by
  have hd := download_file_allFail fs p rc err hrc hfs hfail
  refine ⟨upload_to_drive_allMismatch localMd5 fid remote hm, ?_, ?_, by decide⟩
  · rw [hd]
  · rw [hd]

/-- C2 witness: the amended statement at a concrete mismatching upload and
a concrete three-attempt failing download. -/
theorem upload_retry_policy_bounded_but_different_witness :
    upload_to_drive "aaa" (fun _ => "bbb") "id" =
      (Except.error "MD5 mismatch", 5, [1, 2, 4, 8]) ∧
    (download_file (fun _ => false) "p" 3 (fun _ => some "err")).1.fetches = 3 ∧
    (download_file (fun _ => false) "p" 3 (fun _ => some "err")).1.delays =
      List.replicate (3 - 1) 2 ∧
    ¬([1, 2, 4, 8] : List Nat) = List.replicate (3 - 1) 2 :=
  upload_retry_policy_bounded_but_different "aaa" "id" (fun _ => "bbb")
    (fun k hk => by show ¬("bbb" : String) = "aaa"; decide)
    (fun _ => false) "p" 3 (fun _ => some "err")
    (by decide) (by decide) (fun _ _ => by simp)

/-- C3: For every upload whose remote-reported checksum differs from the
locally computed checksum on every attempt, the retried upload propagates
an error after the retry budget, so the asset (not skipped, whatever its
download outcome) counts as failed, and the enclosing issue is not marked
successful; the mismatch is never silently accepted. -/
theorem checksum_mismatch_fails_asset_and_issue (localMd5 fid : String)
    (remote : Nat → String) (hm : ∀ k, k < 5 → ¬ remote k = localMd5)
    (hasFolderId : Bool) (pre post : List AssetFate) (a : AssetFate)
    (hskip : ¬(hasFolderId && a.existsInDrive) = true)
    (hupload : a.uploadOk = exceptOk (upload_to_drive localMd5 remote fid).1) :
    a.uploadOk = false ∧
    download_newspaper_issue hasFolderId (pre ++ a :: post) = false := by
  have hup : a.uploadOk = false := by
    rw [hupload, upload_to_drive_allMismatch localMd5 fid remote hm]
    rfl
  refine ⟨hup, ?_⟩
  cases hdl : download_newspaper_issue hasFolderId (pre ++ a :: post) with
  | false => rfl
  | true =>
    have hall := (download_newspaper_issue_eq_true hasFolderId (pre ++ a :: post)).mp hdl
    have ha := hall.2 a (by simp)
    unfold assetSucceeded at ha
    rw [hup] at ha
    simp only [Bool.and_false, Bool.or_false] at ha
    exact absurd ha hskip

/-- C3 witness: a mismatching upload at a concrete asset list of one
downloaded, non-skipped asset yields a failed asset and a failed issue. -/
theorem checksum_mismatch_fails_asset_and_issue_witness :
    (AssetFate.mk false true false).uploadOk = false ∧
    download_newspaper_issue false [AssetFate.mk false true false] = false :=
  checksum_mismatch_fails_asset_and_issue "aaa" "id" (fun _ => "bbb")
    (fun k hk => by show ¬("bbb" : String) = "aaa"; decide)
    false [] [] (AssetFate.mk false true false) (by decide) (by rfl)

/-- Searching propagates any property of the position matcher's outputs. -/
theorem searchOpt_some {α : Type} {m : List Char → Option α} {P : α → Prop}
    (hm : ∀ s v, m s = some v → P v) :
    ∀ s v, searchOpt m s = some v → P v := by
  intro s
  induction s with
  | nil =>
    intro v h
    exact hm [] v h
  | cons c t ih =>
    intro v h
    simp only [searchOpt] at h
    cases hc : m (c :: t) with
    | some w =>
      rw [hc] at h
      exact hm (c :: t) v (by rw [hc]; exact h)
    | none =>
      rw [hc] at h
      exact ih v h

/-- The manifest-id pattern body captures at least one character. -/
theorem matchManifestAt_ne_nil {lit s g : List Char}
    (h : matchManifestAt lit s = some g) : g ≠ [] := by
  unfold matchManifestAt at h
  split at h
  · exact absurd h (by simp)
  · split at h
    · exact absurd h (by simp)
    · split at h
      · split at h
        · exact absurd h (by simp)
        · injection h with h2
          rw [← h2]
          assumption
      · exact absurd h (by simp)

/-- Any manifest id the extractor returns is a nonempty string. -/
theorem extract_manifest_id_ne_empty (html m : String)
    (h : extract_manifest_id_from_html html = some m) : m ≠ "" := by
  have key : ∀ lit, ∀ g, searchOpt (matchManifestAt lit) html.toList = some g → g ≠ [] :=
    fun lit =>
      searchOpt_some (fun s v hv => matchManifestAt_ne_nil hv) html.toList
  unfold extract_manifest_id_from_html at h
  cases h1 : searchOpt (matchManifestAt dataSrcLit) html.toList with
  | some g =>
    rw [h1] at h
    have hg := key dataSrcLit g h1
    have hm2 : String.mk g = m := Option.some.inj h
    rw [← hm2]
    intro hemp
    exact hg (congrArg String.data hemp)
  | none =>
    rw [h1] at h
    cases h2 : searchOpt (matchManifestAt srcLit) html.toList with
    | some g =>
      rw [h2] at h
      have hg := key srcLit g h2
      have hm2 : String.mk g = m := Option.some.inj h
      rw [← hm2]
      intro hemp
      exact hg (congrArg String.data hemp)
    | none =>
      rw [h2] at h
      exact absurd h (by simp)

/-- C8: For every HTML fragment in which neither the primary data-src
pattern nor the secondary src pattern matches, process_search_result
yields no Issue (and, being a total function, raises nothing); conversely
every Issue it produces carries a non-empty manifest_id. -/
theorem no_manifest_no_issue (dateElems titleElems : List String) (html : String) :
    (extract_manifest_id_from_html html = none →
      process_search_result dateElems titleElems html = none) ∧
    (∀ issue, process_search_result dateElems titleElems html = some issue →
      issue.manifest_id ≠ "") := by
  constructor
  · intro hext
    unfold process_search_result
    rw [hext]
  · intro issue h
    unfold process_search_result at h
    cases hext : extract_manifest_id_from_html html with
    | none =>
      rw [hext] at h
      simp at h
    | some mid =>
      rw [hext] at h
      simp only [Option.some.injEq] at h
      rw [← h]
      exact extract_manifest_id_ne_empty html mid hext

/-- C8 witness: a fragment with no manifest reference yields no Issue, and
a fragment that does yield an Issue has a nonempty manifest id. -/
theorem no_manifest_no_issue_witness :
    process_search_result [] [] "no manifest markers here" = none ∧
    (NewspaperIssue.mk "Unknown" "Unknown_Date" "bib1" []).manifest_id ≠ "" :=
  ⟨(no_manifest_no_issue [] [] "no manifest markers here").1 (by rfl),
   (no_manifest_no_issue [] []
       "<img data-src=\"https://data.kb.se/iiif/2/bib1/x").2
     (NewspaperIssue.mk "Unknown" "Unknown_Date" "bib1" []) (by rfl)⟩

/-- C9: Date extraction tries exactly the three strategies in priority
order: extract_date_from_html is the first-match-wins chain of the
dedicated date-element strategy, the title-tag strategy, and the
filename-embedded strategy; when strategy one matches, the result is its
value whatever the lower-priority strategies would do (they are not
consulted); when exactly one strategy matches, the result is that
strategy's value. -/
theorem date_extraction_priority_order (html v : String) :
    (extract_date_from_html html =
      dateChain dateStrategy1 dateStrategy2 dateStrategy3 html) ∧
    (dateStrategy1 html = some v →
      ∀ s2 s3, dateChain dateStrategy1 s2 s3 html = some v) ∧
    (dateStrategy1 html = none → dateStrategy2 html = some v →
      extract_date_from_html html = some v) ∧
    (dateStrategy1 html = none → dateStrategy2 html = none →
      extract_date_from_html html = dateStrategy3 html) := by
  refine ⟨rfl, ?_, ?_, ?_⟩
  · intro h1 s2 s3
    unfold dateChain
    rw [h1]
  · intro h1 h2
    unfold extract_date_from_html
    rw [h1, h2]
  · intro h1 h2
    unfold extract_date_from_html
    rw [h1, h2]

/-- C9 witness: the three cases at concrete fragments satisfying exactly
one strategy each. -/
theorem date_extraction_priority_order_witness :
    dateChain dateStrategy1 (fun _ => some "X") (fun _ => none)
      "<p class=\"search-result-item-date\">1865-01-02</p>" = some "1865-01-02" ∧
    extract_date_from_html "<title>Foo 1999-12-31 | x" = some "1999-12-31" ∧
    extract_date_from_html "see bib12_20000101_0.jp2" =
      dateStrategy3 "see bib12_20000101_0.jp2" :=
  ⟨(date_extraction_priority_order
      "<p class=\"search-result-item-date\">1865-01-02</p>" "1865-01-02").2.1
      (by rfl) (fun _ => some "X") (fun _ => none),
   (date_extraction_priority_order "<title>Foo 1999-12-31 | x" "1999-12-31").2.2.1
      (by rfl) (by rfl),
   (date_extraction_priority_order "see bib12_20000101_0.jp2" "x").2.2.2
      (by rfl) (by rfl)⟩

/-- C4 counterexample: the code's sanitizer keeps underscores (the regex
word class includes them), so a title element text with an underscore
yields an Issue title equal to that text, while removing every character
that is not alphanumeric, whitespace, or hyphen would drop the
underscore. -/
theorem title_underscore_counterexample :
    (process_search_result [] ["A_B"]
        "<img data-src=\"https://data.kb.se/iiif/2/bib1/x").map NewspaperIssue.title
      = some "A_B" ∧
    claimTitleSanitize "A_B" = "AB" ∧
    ("A_B" : String) ≠ "AB" :=
  ⟨by rfl, by rfl, by decide⟩

/-- C4 amended: for every fragment that yields an Issue, the title equals
the title element's stripped text with every character that is not a word
character (alphanumeric or underscore), whitespace, or hyphen removed and
the result stripped of surrounding whitespace; when the fragment carries
no title element, or its text strips to the empty string, the title is the
literal "Unknown". -/
theorem title_extraction_amended (dateElems titleElems : List String) (html : String)
    (issue : NewspaperIssue)
    (h : process_search_result dateElems titleElems html = some issue) :
    issue.title =
      match titleElems.head? with
      | none => "Unknown"
      | some t => if pyStrip t = "" then "Unknown" else sanitizeTitle (pyStrip t) := by
  unfold process_search_result at h
  cases hext : extract_manifest_id_from_html html with
  | none =>
    rw [hext] at h
    simp at h
  | some mid =>
    rw [hext] at h
    simp only [Option.some.injEq] at h
    rw [← h]
    cases htl : titleElems.head? with
    | none => simp [htl]
    | some t =>
      by_cases hte : pyStrip t = ""
      · simp [htl, hte]
      · simp [htl, hte]

/-- C4 amended witness: a concrete fragment with title element text
containing punctuation yields the sanitized, stripped title. -/
theorem title_extraction_amended_witness :
    (NewspaperIssue.mk "Dagens Nyheter" "Unknown_Date" "bib1" []).title =
      (if pyStrip "Dagens Nyheter!" = "" then "Unknown"
       else sanitizeTitle (pyStrip "Dagens Nyheter!")) :=
  title_extraction_amended [] ["Dagens Nyheter!"]
    "<img data-src=\"https://data.kb.se/iiif/2/bib1/x"
    (NewspaperIssue.mk "Dagens Nyheter" "Unknown_Date" "bib1" []) (by rfl)

end KBScraper
